import Mathlib

/-!
Shallow embedding of the NCAA Four Factors data pipeline
(`scripts/fetch-data.ts`) and proofs about its specification claims.

Conventions of the embedding:
* JavaScript numbers holding box-score counts are integers produced by
  `parseInt`, modelled as `Int`; the derived Four-Factors percentages are
  modelled as exact rationals `ℚ` (the source computes them in binary
  floating point; the spec asks for the closed-form formulas "within
  floating-point tolerance", so the rational value is the reference value).
* A JavaScript number that can be `NaN` (a game score parsed from an
  arbitrary string) is modelled as `Option Int`, `none` standing for `NaN`.
* String-processing runs over `List Char` so that every definition is
  structurally recursive and kernel-reducible.
* Network effects are modelled by an explicit environment (`Env`) giving,
  for every endpoint and attempt index, the outcome the network would
  produce: either a transport error (a rejected promise) or an HTTP
  response with an `ok` flag and an already-decoded body.
-/

namespace NCAA

/-! ## JavaScript string primitives -/

/-- JS truthiness-based `a || d` for an optional string: an absent or empty
string falls through to the default. -/
def jsStrO (a : Option String) (d : String) : String :=
  match a with
  | some s => if s = "" then d else s
  | none => d

/-- JS `a || b` where both sides are possibly-absent strings. -/
def jsOrS (a : Option String) (b : Option String) : Option String :=
  match a with
  | some s => if s = "" then b else some s
  | none => b

/-- Digit run to a natural number (base 10). -/
def digitsToNat (l : List Char) : Nat :=
  l.foldl (fun n c => n * 10 + (c.toNat - '0'.toNat)) 0

/-- JS `parseInt` (base 10) on a character list: skip leading whitespace,
read an optional sign and a maximal digit run; `none` models `NaN`.
(JS `parseInt` also auto-detects a hex prefix; box-score display values
are decimal, so only base 10 is modelled.) -/
def parseIntChars (l : List Char) : Option Int :=
  let l := l.dropWhile Char.isWhitespace
  match l with
  | '-' :: rest =>
    let ds := rest.takeWhile Char.isDigit
    if ds.isEmpty then none else some (-(digitsToNat ds : Int))
  | '+' :: rest =>
    let ds := rest.takeWhile Char.isDigit
    if ds.isEmpty then none else some (digitsToNat ds : Int)
  | rest =>
    let ds := rest.takeWhile Char.isDigit
    if ds.isEmpty then none else some (digitsToNat ds : Int)

/-- JS `parseInt(s) || 0`: `NaN` (and `0` itself) collapse to `0`. -/
def parseIntD (s : String) : Int :=
  (parseIntChars s.data).getD 0

/-- Split a character list on a separator character, JS
`String.prototype.split` style: `"28-53"` ↦ `["28", "53"]`,
`"-"` ↦ `["", ""]`. -/
def splitChar (c : Char) : List Char → List (List Char)
  | [] => [[]]
  | a :: rest =>
    let r := splitChar c rest
    if a = c then [] :: r
    else
      match r with
      | [] => [[a]]
      | h :: t => (a :: h) :: t

/-- Lower-case a string (JS `toLowerCase` restricted to ASCII, which is all
the upstream stat labels use). -/
def strToLower (s : String) : String :=
  ⟨s.data.map Char.toLower⟩

/-- Last whitespace-separated word, JS `s.split(' ').pop()`. -/
def lastWordStr (s : String) : String :=
  ⟨((splitChar ' ' s.data).getLastD [])⟩

/-- JS `Math.round`: round half toward positive infinity. -/
def roundJS (q : ℚ) : Int :=
  ⌊q + 1 / 2⌋

/-! ## Data model (`scripts/fetch-data.ts`, inline type declarations) -/

inductive Gender
  | mens
  | womens
deriving DecidableEq, Repr

structure Team where
  id : String
  name : String
  abbreviation : String
  displayName : String
  shortDisplayName : String
  logo : String
  color : String
  alternateColor : String
  conference : String
  conferenceId : String
deriving DecidableEq, Repr

structure BoxScoreStats where
  fgm : Int
  fga : Int
  fg3m : Int
  fg3a : Int
  ftm : Int
  fta : Int
  oreb : Int
  dreb : Int
  turnovers : Int
deriving DecidableEq, Repr

structure FourFactors where
  efg : ℚ
  tov : ℚ
  orb : ℚ
  ftr : ℚ
deriving DecidableEq, Repr

/-- The source's `GameTeamStats` flattens `BoxScoreStats` and
`FourFactors` into one record via interface extension; the embedding nests
them as `box` and `factors`. `score` is `Option Int`: `none` models the
`NaN` a malformed score string produces under `parseInt`. -/
structure GameTeamStats where
  teamId : String
  teamName : Option String
  teamAbbreviation : Option String
  teamLogo : Option String
  teamColor : String
  score : Option Int
  isHome : Bool
  box : BoxScoreStats
  factors : FourFactors
deriving DecidableEq, Repr

structure Game where
  id : String
  date : String
  venue : String
  homeTeam : GameTeamStats
  awayTeam : GameTeamStats
  isComplete : Bool
  isConferenceGame : Bool
deriving DecidableEq, Repr

/-- Fields `ppg`/`oppPpg` are `Option ℚ` because a `NaN` score poisons the points
sum; every other field is `NaN`-free by construction. -/
structure TeamStandings where
  teamId : String
  teamName : String
  teamAbbreviation : String
  teamLogo : String
  teamColor : String
  gamesPlayed : Nat
  wins : Nat
  losses : Nat
  confWins : Nat
  confLosses : Nat
  efg : ℚ
  tov : ℚ
  orb : ℚ
  ftr : ℚ
  oppEfg : ℚ
  oppTov : ℚ
  oppOrb : ℚ
  oppFtr : ℚ
  ppg : Option ℚ
  oppPpg : Option ℚ
deriving DecidableEq, Repr

structure Conference where
  id : String
  name : String
deriving DecidableEq, Repr

/-! ## Four-Factors calculator (`calculateFourFactors`) -/

def calculateFourFactors (stats : BoxScoreStats) (opponentDreb : Int) : FourFactors :=
  let efg : ℚ := if stats.fga = 0 then 0 else (((stats.fgm : ℚ) + 1 / 2 * stats.fg3m) / stats.fga) * 100
  let possessions : ℚ := (stats.fga : ℚ) + 44 / 100 * stats.fta + stats.turnovers
  let tov : ℚ := if possessions = 0 then 0 else ((stats.turnovers : ℚ) / possessions) * 100
  let orbTotal : Int := stats.oreb + opponentDreb
  let orb : ℚ := if orbTotal = 0 then 0 else ((stats.oreb : ℚ) / (orbTotal : ℚ)) * 100
  let ftr : ℚ := if stats.fga = 0 then 0 else ((stats.ftm : ℚ) / stats.fga) * 100
  { efg := efg, tov := tov, orb := orb, ftr := ftr }

/-! ## Raw upstream payload shapes (the parts of the ESPN JSON the script
reads, already decoded; absent JSON fields are `Option`) -/

structure RawStat where
  label : Option String
  name : Option String
  displayValue : Option String
deriving DecidableEq, Repr

structure RawBoxTeamInfo where
  id : String
  name : Option String
  displayName : Option String
  abbreviation : Option String
  logo : Option String
  color : Option String
deriving DecidableEq, Repr

structure RawTeamBox where
  team : RawBoxTeamInfo
  statistics : Option (List RawStat)
  homeAway : Option String
deriving DecidableEq, Repr

structure RawCompetitor where
  id : Option String
  teamId : Option String
  score : Option String
deriving DecidableEq, Repr

structure RawCompetition where
  date : Option String
  venueFullName : Option String
  completed : Option Bool
  competitors : List RawCompetitor
deriving DecidableEq, Repr

structure RawHeader where
  competitions : List RawCompetition
  gameDate : Option String
deriving DecidableEq, Repr

structure RawBoxscore where
  teams : List RawTeamBox
deriving DecidableEq, Repr

structure SummaryPayload where
  boxscore : Option RawBoxscore
  header : Option RawHeader
deriving DecidableEq, Repr

/-! ## Box-score parser (`parseTeamStats` and its inner helpers) -/

/-- One `Map.set` step: later writes shadow earlier ones. -/
def mapSet (m : String → Option String) (k v : String) : String → Option String :=
  fun x => if x = k then some v else m x

/-- The `statsMap` a team box's `statistics` array is indexed into: every
entry is stored under both its lower-cased `label` and its lower-cased
`name` (when non-empty), with value `displayValue || '0'`. -/
def buildStatsMap (stats : List RawStat) : String → Option String :=
  stats.foldl
    (fun m stat =>
      let label := strToLower (jsStrO stat.label "")
      let name := strToLower (jsStrO stat.name "")
      let value := jsStrO stat.displayValue "0"
      let m := if label = "" then m else mapSet m label value
      if name = "" then m else mapSet m name value)
    (fun _ => none)

/-- The inner `parseMadeAttempted`: try the candidate keys in order and use the first
whose stored value is truthy and contains the `'-'` separator; split on it
and read the first two components with `parseInt(v) || 0`. -/
def parseMadeAttempted (keys : List String) (m : String → Option String) : Int × Int :=
  match keys with
  | [] => (0, 0)
  | k :: rest =>
    match m (strToLower k) with
    | some val =>
      if val ≠ "" ∧ val.data.contains '-' then
        let parts := (splitChar '-' val.data).map (fun p => (parseIntChars p).getD 0)
        (parts.getD 0 0, parts.getD 1 0)
      else parseMadeAttempted rest m
    | none => parseMadeAttempted rest m

/-- The inner `parseSingle`: first candidate key with a truthy stored value, read as
`parseInt(val) || 0` (even when that read yields `0`, the search stops). -/
def parseSingle (keys : List String) (m : String → Option String) : Int :=
  match keys with
  | [] => 0
  | k :: rest =>
    match m (strToLower k) with
    | some val => if val ≠ "" then parseIntD val else parseSingle rest m
    | none => parseSingle rest m

/-- The rebound section of `parseTeamStats`: resolve `oreb`, `dreb` and the
total, and estimate a 28 % offensive split only when the split is entirely
absent while a positive total is present. Returns `(oreb, dreb)`. -/
def resolveRebounds (m : String → Option String) : Int × Int :=
  let oreb := parseSingle ["offensive rebounds", "offensiverebounds"] m
  let dreb := parseSingle ["defensive rebounds", "defensiverebounds"] m
  let totalReb := parseSingle ["rebounds", "totalrebounds"] m
  if totalReb > 0 ∧ oreb = 0 ∧ dreb = 0 then
    let oreb' := roundJS ((totalReb : ℚ) * (28 / 100))
    (oreb', totalReb - oreb')
  else (oreb, dreb)

/-- ESPN CDN fallback logo URL. -/
def cdnLogo (teamId : String) : String :=
  "https://a.espncdn.com/i/teamlogos/ncaa/500/" ++ teamId ++ ".png"

/-- The closure `parseTeamStats` (inside `fetchGameDetails`): one raw team
box to a `GameTeamStats` with zeroed factors, or `none` when the
statistics array is absent or empty. -/
def parseTeamStats (teamBox : RawTeamBox) (competition : RawCompetition)
    (teamLookup : String → Option Team) : Option GameTeamStats :=
  let teamInfo := teamBox.team
  let isHome := teamBox.homeAway = some "home"
  match teamBox.statistics with
  | none => none
  | some stats =>
    if stats.isEmpty then none
    else
      let statsMap := buildStatsMap stats
      let fg := parseMadeAttempted ["fg", "fieldgoalsmade-fieldgoalsattempted", "field goals"] statsMap
      let fg3 := parseMadeAttempted ["3pt", "threepointfieldgoalsmade-threepointfieldgoalsattempted", "3-pointers"] statsMap
      let ft := parseMadeAttempted ["ft", "freethrowsmade-freethrowsattempted", "free throws"] statsMap
      let rebs := resolveRebounds statsMap
      let turnovers := parseSingle ["turnovers", "totalturnovers", "to"] statsMap
      let boxStats : BoxScoreStats :=
        { fgm := fg.1, fga := fg.2, fg3m := fg3.1, fg3a := fg3.2
          ftm := ft.1, fta := ft.2, oreb := rebs.1, dreb := rebs.2
          turnovers := turnovers }
      let competitor := competition.competitors.find?
        (fun c => c.id = some teamInfo.id ∨ c.teamId = some teamInfo.id)
      let score := parseIntChars (jsStrO (competitor.bind (·.score)) "0").data
      let teamData := teamLookup teamInfo.id
      some
        { teamId := teamInfo.id
          teamName := jsOrS (teamData.map (·.displayName)) (jsOrS teamInfo.displayName teamInfo.name)
          teamAbbreviation := jsOrS (teamData.map (·.abbreviation)) teamInfo.abbreviation
          teamLogo := jsOrS (teamData.map (·.logo)) (jsOrS teamInfo.logo (some (cdnLogo teamInfo.id)))
          teamColor := jsStrO (teamData.map (·.color))
            (match teamInfo.color with
             | some c => if c = "" then "#666666" else "#" ++ c
             | none => "#666666")
          score := score
          isHome := isHome
          box := boxStats
          factors := { efg := 0, tov := 0, orb := 0, ftr := 0 } }

/-- The two `Object.assign(teamNStats, teamNFactors)` lines of
`fetchGameDetails`: each team's factors are computed from its own box
score and the opponent's defensive rebounds. -/
def applyFactors (t0 t1 : GameTeamStats) : GameTeamStats × GameTeamStats :=
  ({ t0 with factors := calculateFourFactors t0.box t1.box.dreb },
   { t1 with factors := calculateFourFactors t1.box t0.box.dreb })

/-- The `isConferenceGame` computation of `fetchGameDetails`: both team ids
resolve in the discovered roster and their `conferenceId`s agree. -/
def isConferenceGameOf (teamLookup : String → Option Team) (homeId awayId : String) : Bool :=
  match teamLookup homeId, teamLookup awayId with
  | some homeTeamData, some awayTeamData => homeTeamData.conferenceId = awayTeamData.conferenceId
  | _, _ => false

/-! ## Standings aggregator (`calculateStandings`) -/

/-- One processed (own team, opponent) pairing of a completed game,
together with the game's `isConferenceGame` flag. -/
structure AggEntry where
  own : GameTeamStats
  opp : GameTeamStats
  isConf : Bool
deriving DecidableEq, Repr

/-- JS `ownScore > oppScore` under the `NaN`-as-`none` encoding: any
comparison against `NaN` is false. -/
def scoreGt (a b : Option Int) : Bool :=
  match a, b with
  | some x, some y => decide (y < x)
  | _, _ => false

/-- JS addition under the `NaN`-as-`none` encoding. -/
def jsAddO (a b : Option Int) : Option Int :=
  match a, b with
  | some x, some y => some (x + y)
  | _, _ => none

/-- The per-team accumulator record of `calculateStandings`. -/
structure TeamAgg where
  games : Nat
  wins : Nat
  losses : Nat
  confWins : Nat
  confLosses : Nat
  efgSum : ℚ
  tovSum : ℚ
  orbSum : ℚ
  ftrSum : ℚ
  oppEfgSum : ℚ
  oppTovSum : ℚ
  oppOrbSum : ℚ
  oppFtrSum : ℚ
  pointsSum : Option Int
  oppPointsSum : Option Int
deriving DecidableEq, Repr

def initTeamAgg : TeamAgg :=
  { games := 0, wins := 0, losses := 0, confWins := 0, confLosses := 0
    efgSum := 0, tovSum := 0, orbSum := 0, ftrSum := 0
    oppEfgSum := 0, oppTovSum := 0, oppOrbSum := 0, oppFtrSum := 0
    pointsSum := some 0, oppPointsSum := some 0 }

/-- The body of `processTeam`: fold one game entry into the accumulator. -/
def stepAgg (s : TeamAgg) (e : AggEntry) : TeamAgg :=
  let won := scoreGt e.own.score e.opp.score
  { games := s.games + 1
    wins := s.wins + (if won then 1 else 0)
    losses := s.losses + (if won then 0 else 1)
    confWins := s.confWins + (if won && e.isConf then 1 else 0)
    confLosses := s.confLosses + (if !won && e.isConf then 1 else 0)
    efgSum := s.efgSum + e.own.factors.efg
    tovSum := s.tovSum + e.own.factors.tov
    orbSum := s.orbSum + e.own.factors.orb
    ftrSum := s.ftrSum + e.own.factors.ftr
    oppEfgSum := s.oppEfgSum + e.opp.factors.efg
    oppTovSum := s.oppTovSum + e.opp.factors.tov
    oppOrbSum := s.oppOrbSum + e.opp.factors.orb
    oppFtrSum := s.oppFtrSum + e.opp.factors.ftr
    pointsSum := jsAddO s.pointsSum e.own.score
    oppPointsSum := jsAddO s.oppPointsSum e.opp.score }

/-- The entries `calculateStandings` processes for team id `t`, in game
order: for each completed game, the home side first (when its id is `t`),
then the away side. The source also gates each side on
`standingsMap.has(teamId)`, which holds whenever `t` is a roster id; the
aggregator only ever reads entries for roster ids. -/
def entriesFor (games : List Game) (t : String) : List AggEntry :=
  games.flatMap fun g =>
    if g.isComplete then
      (if g.homeTeam.teamId = t then [⟨g.homeTeam, g.awayTeam, g.isConferenceGame⟩] else [])
        ++ (if g.awayTeam.teamId = t then [⟨g.awayTeam, g.homeTeam, g.isConferenceGame⟩] else [])
    else []

def aggFor (games : List Game) (t : String) : TeamAgg :=
  (entriesFor games t).foldl stepAgg initTeamAgg

/-- First-occurrence deduplication, modelling JS `Map`/`Set` insertion
order over a key list. -/
def dedupFirstAux : List String → List String → List String
  | _, [] => []
  | seen, x :: rest =>
    if seen.contains x then dedupFirstAux seen rest
    else x :: dedupFirstAux (x :: seen) rest

def dedupFirst (l : List String) : List String :=
  dedupFirstAux [] l

def defaultTeam : Team :=
  { id := "", name := "", abbreviation := "", displayName := "", shortDisplayName := ""
    logo := "", color := "", alternateColor := "", conference := "", conferenceId := "" }

/-- The metadata a `Map.set` loop leaves for a key: the last list element
with that id. -/
def lastWithId (teams : List Team) (id : String) : Team :=
  (teams.filter (fun t => t.id = id)).getLastD defaultTeam

/-- The zero-initialized standings row for one team. -/
def initRow (team : Team) : TeamStandings :=
  { teamId := team.id, teamName := team.displayName, teamAbbreviation := team.abbreviation
    teamLogo := team.logo, teamColor := team.color
    gamesPlayed := 0, wins := 0, losses := 0, confWins := 0, confLosses := 0
    efg := 0, tov := 0, orb := 0, ftr := 0
    oppEfg := 0, oppTov := 0, oppOrb := 0, oppFtr := 0
    ppg := some 0, oppPpg := some 0 }

/-- One finished standings row: the initialized row is kept as-is for a
team with zero aggregated games, and otherwise filled with the
accumulator's record and per-game averages. -/
def rowFor (teams : List Team) (games : List Game) (t : String) : TeamStandings :=
  let team := lastWithId teams t
  let stats := aggFor games t
  let standing := initRow team
  if stats.games = 0 then standing
  else
    { standing with
      gamesPlayed := stats.games, wins := stats.wins, losses := stats.losses
      confWins := stats.confWins, confLosses := stats.confLosses
      efg := stats.efgSum / stats.games, tov := stats.tovSum / stats.games
      orb := stats.orbSum / stats.games, ftr := stats.ftrSum / stats.games
      oppEfg := stats.oppEfgSum / stats.games, oppTov := stats.oppTovSum / stats.games
      oppOrb := stats.oppOrbSum / stats.games, oppFtr := stats.oppFtrSum / stats.games
      ppg := stats.pointsSum.map (fun p => (p : ℚ) / stats.games)
      oppPpg := stats.oppPointsSum.map (fun p => (p : ℚ) / stats.games) }

/-- The order induced by the final sort comparator
`(a, b) => b.wins - a.wins || b.confWins - a.confWins`:
`a` may come before `b`. -/
def standingsRel (a b : TeamStandings) : Prop :=
  b.wins < a.wins ∨ (b.wins = a.wins ∧ b.confWins ≤ a.confWins)

instance : DecidableRel standingsRel := fun a b => by
  unfold standingsRel; infer_instance

instance : IsTotal TeamStandings standingsRel :=
  ⟨fun a b => by unfold standingsRel; omega⟩

instance : IsTrans TeamStandings standingsRel :=
  ⟨fun a b c => by unfold standingsRel; omega⟩

/-- The aggregator `calculateStandings`: one row per distinct roster id (JS `Map`
insertion order), sorted by the wins/conference-wins comparator.
`Array.prototype.sort` is stable, and a stable sort under this total
preorder is modelled exactly by insertion sort. -/
def calculateStandings (teams : List Team) (games : List Game) : List TeamStandings :=
  List.insertionSort standingsRel ((dedupFirst (teams.map (·.id))).map (rowFor teams games))

/-! ## Network model and fetching pipeline -/

/-- An HTTP response that arrived: ESPN's status flag plus the decoded
JSON body. -/
structure HttpResp (α : Type) where
  ok : Bool
  body : α
deriving DecidableEq, Repr

/-- One network attempt either rejects with a transport error (modelled by
its message) or yields a response. -/
abbrev NetResult (α : Type) := Except String (HttpResp α)

/-- The loop of `fetchWithRetry`: `f` gives the attempt outcomes, `remaining`
counts attempts still allowed; the returned list records the backoff
delays (ms) slept between failed attempts. -/
def fetchWithRetryAux {α : Type} (f : Nat → NetResult α) :
    Nat → Nat → Option String → List Nat → Except String (HttpResp α) × List Nat
  | 0, _, lastError, delays => (.error (lastError.getD "null"), delays)
  | remaining + 1, attempt, _, delays =>
    match f attempt with
    | .ok response => (.ok response, delays)
    | .error e =>
      let delays := if remaining > 0 then delays ++ [1000 * 2 ^ attempt] else delays
      fetchWithRetryAux f remaining (attempt + 1) (some e) delays

/-- The wrapper `fetchWithRetry(url, maxRetries)`: retry only on transport errors
(a non-ok HTTP response is returned as-is), sleeping `1000 * 2 ^ attempt`
ms between failed attempts, and rethrow the last error when the attempt
budget is exhausted. -/
def fetchWithRetry {α : Type} (f : Nat → NetResult α) (maxRetries : Nat) :
    Except String (HttpResp α) × List Nat :=
  fetchWithRetryAux f maxRetries 0 none []

structure RawConf where
  groupId : String
  name : String
deriving DecidableEq, Repr

structure RawEntryTeam where
  id : String
  name : Option String
  displayName : Option String
  abbreviation : Option String
  shortDisplayName : Option String
deriving DecidableEq, Repr

structure RawEntry where
  team : Option RawEntryTeam
deriving DecidableEq, Repr

structure RawLogo where
  href : Option String
deriving DecidableEq, Repr

structure DetailTeam where
  logos : List RawLogo
  color : Option String
  alternateColor : Option String
deriving DecidableEq, Repr

structure RawEvent where
  id : String
  date : String
  completed : Option Bool
deriving DecidableEq, Repr

/-- The network as the pipeline sees it: for each endpoint (and query) the
outcome of each successive attempt, plus `Date.parse` for the final game
sort. Every call the script makes without `fetchWithRetry` consumes
attempt `0` only. -/
structure Env where
  conf : Gender → Nat → NetResult (List RawConf)
  standings : Gender → String → Nat → NetResult (List RawEntry)
  teamDetail : Gender → String → Nat → NetResult DetailTeam
  schedule : Gender → String → Nat → NetResult (List RawEvent)
  summary : Gender → String → Nat → NetResult SummaryPayload
  dateMs : String → Int

/-- Discovery `fetchAllConferences`: a single un-retried fetch; a non-ok response is
logged and resolved to the empty list, a transport error propagates. The
"NCAA Division I" aggregate group `'50'` is filtered out. -/
def fetchAllConferences (env : Env) (g : Gender) : Except String (List Conference) :=
  match env.conf g 0 with
  | .error e => .error e
  | .ok response =>
    if !response.ok then .ok []
    else .ok ((response.body.filter (fun c => c.groupId ≠ "50")).map fun c =>
      { id := c.groupId, name := c.name })

/-- Discovery `fetchConferenceTeams`: the conference standings fetch and, per entry,
a team-detail fetch for logo/colors; both are single un-retried fetches
whose transport errors propagate, while non-ok responses degrade (empty
team list / default cosmetics). -/
def fetchConferenceTeams (env : Env) (g : Gender) (conferenceId conferenceName : String) :
    Except String (List Team) :=
  match env.standings g conferenceId 0 with
  | .error e => .error e
  | .ok response =>
    if !response.ok then .ok []
    else
      response.body.foldlM
        (fun (teams : List Team) entry =>
          match entry.team with
          | none => pure teams
          | some teamInfo =>
            let logo0 := cdnLogo teamInfo.id
            match env.teamDetail g teamInfo.id 0 with
            | .error e => .error e
            | .ok detailResponse =>
              let cosmetics :=
                if detailResponse.ok then
                  let fullTeam := detailResponse.body
                  (jsStrO (fullTeam.logos.head?.bind (·.href)) logo0,
                   (match fullTeam.color with
                    | some c => if c = "" then "#666666" else "#" ++ c
                    | none => "#666666"),
                   (match fullTeam.alternateColor with
                    | some c => if c = "" then "#333333" else "#" ++ c
                    | none => "#333333"))
                else (logo0, "#666666", "#333333")
              pure (teams ++
                [{ id := teamInfo.id
                   name := jsStrO teamInfo.name
                     (jsStrO (teamInfo.displayName.map lastWordStr) "Unknown")
                   abbreviation := jsStrO teamInfo.abbreviation teamInfo.id
                   displayName := jsStrO teamInfo.displayName (jsStrO teamInfo.name "")
                   shortDisplayName := jsStrO teamInfo.shortDisplayName
                     (jsStrO teamInfo.displayName (jsStrO teamInfo.name ""))
                   logo := cosmetics.1
                   color := cosmetics.2.1
                   alternateColor := cosmetics.2.2
                   conference := conferenceName
                   conferenceId := conferenceId }]))
        []

/-- Discovery `fetchAllTeams`: all conferences, their teams concatenated with
global first-occurrence deduplication by team id. -/
def fetchAllTeams (env : Env) (g : Gender) : Except String (List Team) := do
  let conferences ← fetchAllConferences env g
  conferences.foldlM
    (fun (allTeams : List Team) conf => do
      let teams ← fetchConferenceTeams env g conf.id conf.name
      pure (teams.foldl
        (fun acc team => if acc.any (fun t => t.id = team.id) then acc else acc ++ [team])
        allTeams))
    []

structure SchedGame where
  gameId : String
  date : String
  isComplete : Bool
deriving DecidableEq, Repr

/-- The crawler `fetchTeamSchedule`: a single un-retried fetch; non-ok resolves to the
empty list, a transport error propagates. -/
def fetchTeamSchedule (env : Env) (g : Gender) (teamId : String) :
    Except String (List SchedGame) :=
  match env.schedule g teamId 0 with
  | .error e => .error e
  | .ok response =>
    if !response.ok then .ok []
    else .ok (response.body.map fun event =>
      { gameId := event.id, date := event.date, isComplete := event.completed.getD false })

/-- The JS `Map` built from the team list: last `set` for an id wins. -/
def lookupTeam (teams : List Team) : String → Option Team :=
  fun id => (teams.filter (fun t => t.id = id)).getLast?

/-- The game fetch `fetchGameDetails`: the summary fetch through `fetchWithRetry`; the
surrounding try/catch turns exhausted retries into `null`, and a non-ok
response, a missing box score, fewer than two team boxes, a missing
competition header or an unparseable team box all drop the game. -/
def fetchGameDetails (attempts : Nat → NetResult SummaryPayload)
    (teamLookup : String → Option Team) (gameId : String) : Option Game :=
  match (fetchWithRetry attempts 3).1 with
  | .error _ => none
  | .ok response =>
    if !response.ok then none
    else
      let data := response.body
      match data.boxscore with
      | none => none
      | some boxscore =>
        match boxscore.teams with
        | t0 :: t1 :: _ =>
          match data.header.bind (fun h => h.competitions.head?) with
          | none => none
          | some competition =>
            match parseTeamStats t0 competition teamLookup,
                parseTeamStats t1 competition teamLookup with
            | some team0Stats, some team1Stats =>
              let assigned := applyFactors team0Stats team1Stats
              let homeTeam := if assigned.1.isHome then assigned.1 else assigned.2
              let awayTeam := if assigned.1.isHome then assigned.2 else assigned.1
              some
                { id := gameId
                  date := jsStrO competition.date (jsStrO (data.header.bind (·.gameDate)) "")
                  venue := jsStrO competition.venueFullName ""
                  homeTeam := homeTeam
                  awayTeam := awayTeam
                  isComplete := competition.completed.getD false
                  isConferenceGame := isConferenceGameOf teamLookup homeTeam.teamId awayTeam.teamId }
            | _, _ => none
        | _ => none

/-- The final per-gender game ordering (most recent first), from the
comparator `(a, b) => Date(b.date) - Date(a.date)`. -/
def gameDateRel (env : Env) (a b : Game) : Prop :=
  env.dateMs b.date ≤ env.dateMs a.date

instance (env : Env) : DecidableRel (gameDateRel env) := fun a b => by
  unfold gameDateRel; infer_instance

/-- The per-gender pipeline `fetchGenderData`: discovery, schedule crawl with global game-id
deduplication, per-game detail fetches (failed ones skipped), date sort,
standings. -/
def fetchGenderData (env : Env) (g : Gender) :
    Except String (List Team × List Game × List TeamStandings) := do
  let teams ← fetchAllTeams env g
  let teamLookup := lookupTeam teams
  let gameIds ← teams.foldlM
    (fun (gameIds : List String) team => do
      let schedule ← fetchTeamSchedule env g team.id
      pure (schedule.foldl
        (fun acc game =>
          if game.isComplete then
            if acc.contains game.gameId then acc else acc ++ [game.gameId]
          else acc)
        gameIds))
    []
  let games := gameIds.foldl
    (fun games gameId =>
      match fetchGameDetails (env.summary g gameId) teamLookup gameId with
      | some game => games ++ [game]
      | none => games)
    []
  let games := List.insertionSort (gameDateRel env) games
  let standings := calculateStandings teams games
  pure (teams, games, standings)

inductive OutFile
  | teams (content : List Team)
  | games (content : List Game)
  | standings (content : List TeamStandings)
deriving DecidableEq, Repr

/-- One `fs.writeFileSync` of a season/gender output collection. -/
structure WriteEvent where
  gender : Gender
  file : OutFile
deriving DecidableEq, Repr

def genderWrites (g : Gender) (data : List Team × List Game × List TeamStandings) :
    List WriteEvent :=
  [⟨g, .teams data.1⟩, ⟨g, .games data.2.1⟩, ⟨g, .standings data.2.2⟩]

/-- The entry point `main` after argument parsing: fetch and persist the men's data, then
the women's. The result is the ordered list of file writes performed and
the uncaught error, if any, that ended the run (`main().catch`). -/
def mainRun (env : Env) : List WriteEvent × Option String :=
  match fetchGenderData env .mens with
  | .error e => ([], some e)
  | .ok mensData =>
    let mensWrites := genderWrites .mens mensData
    match fetchGenderData env .womens with
    | .error e => (mensWrites, some e)
    | .ok womensData => (mensWrites ++ genderWrites .womens womensData, none)

/-! ## Helper definitions used by the claim statements -/

/-- Did the own side win its entry (strict score comparison)? -/
def entryWon (e : AggEntry) : Bool :=
  scoreGt e.own.score e.opp.score

/-- The per-game values of one statistic over the entries aggregated for
team `t`. -/
def perGame (games : List Game) (t : String) (f : AggEntry → ℚ) : List ℚ :=
  (entriesFor games t).map f

/-- Predicate: `x` lies between the minimum and the maximum of `vals`: some member
bounds all of `vals` from below and lies below `x`, and dually. -/
def meanBetween (vals : List ℚ) (x : ℚ) : Prop :=
  ∃ lo ∈ vals, ∃ hi ∈ vals, (∀ v ∈ vals, lo ≤ v ∧ v ≤ hi) ∧ lo ≤ x ∧ x ≤ hi

/-! ## Helper lemmas about the aggregation fold -/

theorem foldl_stepAgg_nat (proj : TeamAgg → Nat) (p : AggEntry → Bool)
    (h : ∀ s e, proj (stepAgg s e) = proj s + (if p e then 1 else 0)) :
    ∀ (l : List AggEntry) (s : TeamAgg),
      proj (l.foldl stepAgg s) = proj s + l.countP p := by
  intro l
  induction l with
  | nil => intro s; simp
  | cons e t ih =>
    intro s
    rw [List.foldl_cons, ih, h, List.countP_cons]
    cases hp : p e <;> simp [hp] <;> omega

theorem foldl_stepAgg_rat (proj : TeamAgg → ℚ) (f : AggEntry → ℚ)
    (h : ∀ s e, proj (stepAgg s e) = proj s + f e) :
    ∀ (l : List AggEntry) (s : TeamAgg),
      proj (l.foldl stepAgg s) = proj s + (l.map f).sum := by
  intro l
  induction l with
  | nil => intro s; simp
  | cons e t ih =>
    intro s
    rw [List.foldl_cons, ih, h, List.map_cons, List.sum_cons]
    ring

theorem aggFor_games (games : List Game) (t : String) :
    (aggFor games t).games = (entriesFor games t).length := by
  have h := foldl_stepAgg_nat (fun s => s.games) (fun _ => true)
    (fun s e => by simp [stepAgg]) (entriesFor games t) initTeamAgg
  simpa [aggFor, initTeamAgg, List.countP_true] using h

theorem aggFor_wins (games : List Game) (t : String) :
    (aggFor games t).wins = (entriesFor games t).countP entryWon := by
  have h := foldl_stepAgg_nat (fun s => s.wins) entryWon
    (fun s e => by simp [stepAgg, entryWon]) (entriesFor games t) initTeamAgg
  simpa [aggFor, initTeamAgg] using h

theorem aggFor_losses (games : List Game) (t : String) :
    (aggFor games t).losses = (entriesFor games t).countP (fun e => !entryWon e) := by
  have h := foldl_stepAgg_nat (fun s => s.losses) (fun e => !entryWon e)
    (fun s e => by cases hw : entryWon e <;>
      simp [stepAgg, entryWon] at hw ⊢ <;> simp [hw]) (entriesFor games t) initTeamAgg
  simpa [aggFor, initTeamAgg] using h

theorem aggFor_confWins (games : List Game) (t : String) :
    (aggFor games t).confWins = (entriesFor games t).countP (fun e => entryWon e && e.isConf) := by
  have h := foldl_stepAgg_nat (fun s => s.confWins) (fun e => entryWon e && e.isConf)
    (fun s e => by simp [stepAgg, entryWon]) (entriesFor games t) initTeamAgg
  simpa [aggFor, initTeamAgg] using h

theorem aggFor_confLosses (games : List Game) (t : String) :
    (aggFor games t).confLosses = (entriesFor games t).countP (fun e => !entryWon e && e.isConf) := by
  have h := foldl_stepAgg_nat (fun s => s.confLosses) (fun e => !entryWon e && e.isConf)
    (fun s e => by cases hw : entryWon e <;>
      simp [stepAgg, entryWon] at hw ⊢ <;> simp [hw]) (entriesFor games t) initTeamAgg
  simpa [aggFor, initTeamAgg] using h

theorem aggFor_efgSum (games : List Game) (t : String) :
    (aggFor games t).efgSum = ((entriesFor games t).map (fun e => e.own.factors.efg)).sum := by
  have h := foldl_stepAgg_rat (fun s => s.efgSum) (fun e => e.own.factors.efg)
    (fun s e => by simp [stepAgg]) (entriesFor games t) initTeamAgg
  simpa [aggFor, initTeamAgg] using h

theorem aggFor_tovSum (games : List Game) (t : String) :
    (aggFor games t).tovSum = ((entriesFor games t).map (fun e => e.own.factors.tov)).sum := by
  have h := foldl_stepAgg_rat (fun s => s.tovSum) (fun e => e.own.factors.tov)
    (fun s e => by simp [stepAgg]) (entriesFor games t) initTeamAgg
  simpa [aggFor, initTeamAgg] using h

theorem aggFor_orbSum (games : List Game) (t : String) :
    (aggFor games t).orbSum = ((entriesFor games t).map (fun e => e.own.factors.orb)).sum := by
  have h := foldl_stepAgg_rat (fun s => s.orbSum) (fun e => e.own.factors.orb)
    (fun s e => by simp [stepAgg]) (entriesFor games t) initTeamAgg
  simpa [aggFor, initTeamAgg] using h

theorem aggFor_ftrSum (games : List Game) (t : String) :
    (aggFor games t).ftrSum = ((entriesFor games t).map (fun e => e.own.factors.ftr)).sum := by
  have h := foldl_stepAgg_rat (fun s => s.ftrSum) (fun e => e.own.factors.ftr)
    (fun s e => by simp [stepAgg]) (entriesFor games t) initTeamAgg
  simpa [aggFor, initTeamAgg] using h

theorem aggFor_oppEfgSum (games : List Game) (t : String) :
    (aggFor games t).oppEfgSum = ((entriesFor games t).map (fun e => e.opp.factors.efg)).sum := by
  have h := foldl_stepAgg_rat (fun s => s.oppEfgSum) (fun e => e.opp.factors.efg)
    (fun s e => by simp [stepAgg]) (entriesFor games t) initTeamAgg
  simpa [aggFor, initTeamAgg] using h

theorem aggFor_oppTovSum (games : List Game) (t : String) :
    (aggFor games t).oppTovSum = ((entriesFor games t).map (fun e => e.opp.factors.tov)).sum := by
  have h := foldl_stepAgg_rat (fun s => s.oppTovSum) (fun e => e.opp.factors.tov)
    (fun s e => by simp [stepAgg]) (entriesFor games t) initTeamAgg
  simpa [aggFor, initTeamAgg] using h

theorem aggFor_oppOrbSum (games : List Game) (t : String) :
    (aggFor games t).oppOrbSum = ((entriesFor games t).map (fun e => e.opp.factors.orb)).sum := by
  have h := foldl_stepAgg_rat (fun s => s.oppOrbSum) (fun e => e.opp.factors.orb)
    (fun s e => by simp [stepAgg]) (entriesFor games t) initTeamAgg
  simpa [aggFor, initTeamAgg] using h

theorem aggFor_oppFtrSum (games : List Game) (t : String) :
    (aggFor games t).oppFtrSum = ((entriesFor games t).map (fun e => e.opp.factors.ftr)).sum := by
  have h := foldl_stepAgg_rat (fun s => s.oppFtrSum) (fun e => e.opp.factors.ftr)
    (fun s e => by simp [stepAgg]) (entriesFor games t) initTeamAgg
  simpa [aggFor, initTeamAgg] using h

theorem scoreGt_irrefl (a : Option Int) : scoreGt a a = false := by
  cases a <;> simp [scoreGt]

/-! ## Helper lemmas about row construction and membership -/

theorem dedupFirstAux_subset {x : String} :
    ∀ (seen l : List String), x ∈ dedupFirstAux seen l → x ∈ l := by
  intro seen l
  induction l generalizing seen with
  | nil => simp [dedupFirstAux]
  | cons a rest ih =>
    intro hx
    simp only [dedupFirstAux] at hx
    by_cases hs : seen.contains a
    · simp only [hs, if_pos] at hx
      exact List.mem_cons_of_mem _ (ih seen hx)
    · simp only [hs, if_neg, Bool.false_eq_true, not_false_iff] at hx
      rcases List.mem_cons.mp hx with rfl | hx
      · exact List.mem_cons_self _ _
      · exact List.mem_cons_of_mem _ (ih (a :: seen) hx)

theorem getLastD_mem {α : Type} (d : α) : ∀ (l : List α), l ≠ [] → l.getLastD d ∈ l
  | [], h => absurd rfl h
  | [x], _ => by simp
  | x :: y :: t, _ => by
    have := getLastD_mem d (y :: t) (by simp)
    simpa [List.getLastD] using Or.inr this

theorem rowFor_teamId (teams : List Team) (games : List Game) (t : String)
    (ht : ∃ team ∈ teams, team.id = t) : (rowFor teams games t).teamId = t := by
  obtain ⟨team, hmem, hid⟩ := ht
  have hfmem : team ∈ teams.filter (fun tm => tm.id = t) :=
    List.mem_filter.mpr ⟨hmem, by simp [hid]⟩
  have hfne : teams.filter (fun tm => tm.id = t) ≠ [] :=
    List.ne_nil_of_mem hfmem
  have hlast := getLastD_mem defaultTeam _ hfne
  have hlastid : (lastWithId teams t).id = t := by
    have := List.mem_filter.mp hlast
    simpa [lastWithId] using this.2
  unfold rowFor
  by_cases hg : (aggFor games t).games = 0 <;>
    simp [hg, initRow, hlastid]

theorem mem_calculateStandings {teams : List Team} {games : List Game}
    {row : TeamStandings} (hrow : row ∈ calculateStandings teams games) :
    row = rowFor teams games row.teamId := by
  unfold calculateStandings at hrow
  rw [List.mem_insertionSort] at hrow
  obtain ⟨t, ht, hrow⟩ := List.mem_map.mp hrow
  have hid : ∃ team ∈ teams, team.id = t := by
    have := dedupFirstAux_subset [] (teams.map (·.id)) ht
    obtain ⟨team, hmem, hteq⟩ := List.mem_map.mp this
    exact ⟨team, hmem, hteq⟩
  have hteamId : row.teamId = t := by
    rw [← hrow]; exact rowFor_teamId teams games t hid
  rw [hteamId]; exact hrow.symm

/-! ## Helper lemmas about list minima, maxima and means -/

theorem exists_list_min : ∀ (l : List ℚ), l ≠ [] → ∃ m ∈ l, ∀ v ∈ l, m ≤ v
  | [], h => absurd rfl h
  | [x], _ => ⟨x, by simp, by simp⟩
  | x :: y :: t, _ => by
    obtain ⟨m, hm, hmin⟩ := exists_list_min (y :: t) (by simp)
    by_cases hx : x ≤ m
    · refine ⟨x, List.mem_cons_self _ _, ?_⟩
      intro v hv
      rcases List.mem_cons.mp hv with rfl | hv
      · exact le_refl v
      · exact le_trans hx (hmin v hv)
    · refine ⟨m, List.mem_cons_of_mem _ hm, ?_⟩
      intro v hv
      rcases List.mem_cons.mp hv with rfl | hv
      · exact le_of_not_le hx
      · exact hmin v hv

theorem exists_list_max : ∀ (l : List ℚ), l ≠ [] → ∃ m ∈ l, ∀ v ∈ l, v ≤ m
  | [], h => absurd rfl h
  | [x], _ => ⟨x, by simp, by simp⟩
  | x :: y :: t, _ => by
    obtain ⟨m, hm, hmax⟩ := exists_list_max (y :: t) (by simp)
    by_cases hx : m ≤ x
    · refine ⟨x, List.mem_cons_self _ _, ?_⟩
      intro v hv
      rcases List.mem_cons.mp hv with rfl | hv
      · exact le_refl v
      · exact le_trans (hmax v hv) hx
    · refine ⟨m, List.mem_cons_of_mem _ hm, ?_⟩
      intro v hv
      rcases List.mem_cons.mp hv with rfl | hv
      · exact le_of_not_le hx
      · exact hmax v hv

theorem meanBetween_sum_div_length (vals : List ℚ) (h : vals ≠ []) :
    meanBetween vals (vals.sum / vals.length) := by
  obtain ⟨lo, hlom, hlo⟩ := exists_list_min vals h
  obtain ⟨hi, hhim, hhi⟩ := exists_list_max vals h
  have hlen : (0 : ℚ) < vals.length := by
    have : 0 < vals.length := List.length_pos.mpr h
    exact_mod_cast this
  refine ⟨lo, hlom, hi, hhim, fun v hv => ⟨hlo v hv, hhi v hv⟩, ?_, ?_⟩
  · rw [le_div_iff hlen]
    have hb := List.card_nsmul_le_sum vals lo hlo
    simpa [nsmul_eq_mul, mul_comm] using hb
  · rw [div_le_iff hlen]
    have hb := List.sum_le_card_nsmul vals hi hhi
    simpa [nsmul_eq_mul, mul_comm] using hb

/-! ## Spec-side definitions for claim C8 -/

/-- Does a stored value parse as a valid "M-A" pair in the spec's sense:
splitting on the separator yields a first and a second component that
both read as integers? -/
def isValidMAPair (v : String) : Bool :=
  match splitChar '-' v.data with
  | made :: attempted :: _ => (parseIntChars made).isSome && (parseIntChars attempted).isSome
  | _ => false

/-- The spec's made/attempted resolution (spec §4.3): "Try multiple
candidate keys in a fixed priority order ... and use the first one that
parses as a valid M-A pair"; defined from the spec's words, for comparison
with the source's `parseMadeAttempted`. -/
def specParseMadeAttempted (keys : List String) (m : String → Option String) : Int × Int :=
  match keys with
  | [] => (0, 0)
  | k :: rest =>
    match m (strToLower k) with
    | some val =>
      if isValidMAPair val then
        match splitChar '-' val.data with
        | made :: attempted :: _ => ((parseIntChars made).getD 0, (parseIntChars attempted).getD 0)
        | _ => (0, 0)
      else specParseMadeAttempted rest m
    | none => specParseMadeAttempted rest m

/-- The amended description of the source behaviour: the first candidate
whose stored value is truthy and merely contains the separator is used
(its first two split components read with `parseInt(v) || 0`), whether or
not they are numeric; only when no candidate's value contains a `'-'` do
made and attempted default to `(0, 0)`. Stated over `List.find?` to give
an independent formulation of the search. -/
def amendedParseMadeAttempted (keys : List String) (m : String → Option String) : Int × Int :=
  match keys.find? (fun k =>
      match m (strToLower k) with
      | some val => !(val = "") && val.data.contains '-'
      | none => false) with
  | some k =>
    match m (strToLower k) with
    | some val =>
      match (splitChar '-' val.data).map (fun p => (parseIntChars p).getD 0) with
      | made :: attempted :: _ => (made, attempted)
      | [made] => (made, 0)
      | [] => (0, 0)
    | none => (0, 0)
  | none => (0, 0)

/-- The candidate-key map of claim C8's counterexample: the highest
priority key holds a value containing the separator but with non-numeric
components, the second key holds a genuine pair. -/
def exMAMap : String → Option String := fun k =>
  if k = "fg" then some "a-b"
  else if k = "fieldgoalsmade-fieldgoalsattempted" then some "28-53"
  else none

/-- The stats map of claim C3's non-firing example: a genuine
zero-offensive-rebound split `(0, 15)` alongside a positive total. -/
def exSplitMap : String → Option String := fun k =>
  if k = "offensive rebounds" then some "0"
  else if k = "defensive rebounds" then some "15"
  else if k = "rebounds" then some "15"
  else none

/-- Claim C6's example box score: a team with 10 offensive rebounds. -/
def exOrbBox : BoxScoreStats :=
  { fgm := 0, fga := 0, fg3m := 0, fg3a := 0, ftm := 0, fta := 0
    oreb := 10, dreb := 0, turnovers := 0 }

/-! ## Claim theorems -/

/-- C1: for every `BoxScoreStats`, `calculateFourFactors` returns
`efg = ((fgm + 0.5*fg3m)/fga)*100` with `efg = 0` when `fga = 0`,
`tov = turnovers/(fga + 0.44*fta + turnovers)*100` with `tov = 0` when
that denominator is `0`, and `ftr = (ftm/fga)*100` with `ftr = 0` when
`fga = 0`; every zero-denominator case yields exactly `0` (the result is a
total rational value, never an error or NaN). -/
theorem claim1_calculateFourFactors_formulas (stats : BoxScoreStats) (opponentDreb : Int) :
    (calculateFourFactors stats opponentDreb).efg =
      (if stats.fga = 0 then 0
       else (((stats.fgm : ℚ) + 1 / 2 * (stats.fg3m : ℚ)) / (stats.fga : ℚ)) * 100)
    ∧ (calculateFourFactors stats opponentDreb).tov =
      (if (stats.fga : ℚ) + 44 / 100 * (stats.fta : ℚ) + (stats.turnovers : ℚ) = 0 then 0
       else ((stats.turnovers : ℚ) /
         ((stats.fga : ℚ) + 44 / 100 * (stats.fta : ℚ) + (stats.turnovers : ℚ))) * 100)
    ∧ (calculateFourFactors stats opponentDreb).ftr =
      (if stats.fga = 0 then 0 else ((stats.ftm : ℚ) / (stats.fga : ℚ)) * 100) := by
  refine ⟨rfl, rfl, rfl⟩

/-- C3: the rebound-split heuristic fires exactly when a positive total
is resolved while the parsed `oreb` and `dreb` are both `0`, in which case
`oreb = round(total * 0.28)` and `dreb = total - oreb`; it never fires
when only one split value is zero: the resolved split `(0, 15)` is kept
unchanged even with a positive total present, while a bare total of `40`
is split into `(11, 29)`. -/
theorem claim3_rebound_heuristic :
    (∀ m : String → Option String,
      resolveRebounds m =
        (let oreb := parseSingle ["offensive rebounds", "offensiverebounds"] m
         let dreb := parseSingle ["defensive rebounds", "defensiverebounds"] m
         let totalReb := parseSingle ["rebounds", "totalrebounds"] m
         if totalReb > 0 ∧ oreb = 0 ∧ dreb = 0 then
           (roundJS ((totalReb : ℚ) * (28 / 100)),
            totalReb - roundJS ((totalReb : ℚ) * (28 / 100)))
         else (oreb, dreb)))
    ∧ resolveRebounds (fun k => if k = "rebounds" then some "40" else none) = (11, 29)
    ∧ resolveRebounds exSplitMap = (0, 15) := by
  refine ⟨fun m => rfl, ?_, ?_⟩
  · simp [resolveRebounds, parseSingle, strToLower, parseIntD, parseIntChars, digitsToNat]
    norm_num [roundJS]
  · decide

/-- C6: in the game assembly, team 0's `orb` is computed from its own
`oreb` and team 1's `dreb` and vice versa, each independently matching
`oreb / (oreb + opponentDreb) * 100` with `0` exactly when both counts are
`0`; in particular `oreb = 10` against `dreb = 20` gives `orb = 100/3`. -/
theorem claim6_orb_symmetric :
    (∀ t0 t1 : GameTeamStats,
      (applyFactors t0 t1).1.factors.orb =
        (if t0.box.oreb + t1.box.dreb = 0 then 0
         else ((t0.box.oreb : ℚ) / ((t0.box.oreb : ℚ) + (t1.box.dreb : ℚ))) * 100)
      ∧ (applyFactors t0 t1).2.factors.orb =
        (if t1.box.oreb + t0.box.dreb = 0 then 0
         else ((t1.box.oreb : ℚ) / ((t1.box.oreb : ℚ) + (t0.box.dreb : ℚ))) * 100))
    ∧ (calculateFourFactors exOrbBox 20).orb = 100 / 3 := by
  constructor
  · intro t0 t1
    constructor <;> simp [applyFactors, calculateFourFactors]
  · norm_num [calculateFourFactors, exOrbBox]

/-- C7: `isConferenceGame` is true iff both the home and the away team id
resolve in the discovered roster and the two `conferenceId` values are
equal; it is false whenever either team is unknown or the ids differ.
Moreover every game `fetchGameDetails` produces carries exactly this flag
for its two participants. -/
theorem claim7_isConferenceGame_iff :
    (∀ (teamLookup : String → Option Team) (homeId awayId : String),
      isConferenceGameOf teamLookup homeId awayId = true ↔
        ∃ homeTeamData awayTeamData,
          teamLookup homeId = some homeTeamData
          ∧ teamLookup awayId = some awayTeamData
          ∧ homeTeamData.conferenceId = awayTeamData.conferenceId)
    ∧ (∀ (attempts : Nat → NetResult SummaryPayload) (teamLookup : String → Option Team)
        (gameId : String),
      (fetchGameDetails attempts teamLookup gameId).all
        (fun game => game.isConferenceGame ==
          isConferenceGameOf teamLookup game.homeTeam.teamId game.awayTeam.teamId) = true) := by
  constructor
  · intro teamLookup homeId awayId
    unfold isConferenceGameOf
    cases hh : teamLookup homeId <;> cases ha : teamLookup awayId <;> simp
  · intro attempts teamLookup gameId
    unfold fetchGameDetails
    rcases h1 : (fetchWithRetry attempts 3).1 with e | response
    · simp
    · by_cases hok : response.ok
      · rcases hbox : response.body.boxscore with _ | boxscore
        · simp [hok, hbox]
        · rcases hteams : boxscore.teams with _ | ⟨t0, _ | ⟨t1, rest⟩⟩
          · simp [hok, hbox, hteams]
          · simp [hok, hbox, hteams]
          · rcases hcomp : response.body.header.bind (fun h => h.competitions.head?)
              with _ | competition
            · simp [hok, hbox, hteams, hcomp]
            · rcases hp0 : parseTeamStats t0 competition teamLookup with _ | team0Stats
              · simp [hok, hbox, hteams, hcomp, hp0]
              · rcases hp1 : parseTeamStats t1 competition teamLookup with _ | team1Stats
                · simp [hok, hbox, hteams, hcomp, hp0, hp1]
                · simp [hok, hbox, hteams, hcomp, hp0, hp1]
      · simp [hok]

/-- C8 counterexample: with the `fg` key holding `"a-b"` (contains the
separator, but not a valid made-attempted pair) and the lower-priority
machine-name key holding `"28-53"`, the source parser settles on the first
key and returns `(0, 0)`, not the valid pair `(28, 53)` the spec's rule
selects. -/
theorem claim8_counterexample :
    parseMadeAttempted ["fg", "fieldgoalsmade-fieldgoalsattempted", "field goals"] exMAMap
      = (0, 0)
    ∧ specParseMadeAttempted ["fg", "fieldgoalsmade-fieldgoalsattempted", "field goals"] exMAMap
      = (28, 53)
    ∧ parseMadeAttempted ["fg", "fieldgoalsmade-fieldgoalsattempted", "field goals"] exMAMap
      ≠ specParseMadeAttempted ["fg", "fieldgoalsmade-fieldgoalsattempted", "field goals"] exMAMap := by
  refine ⟨by decide, by decide, by decide⟩

/-- C8 (amended): the parser uses the first candidate key whose stored
value is truthy and contains the `'-'` separator, splitting on it and
reading the first two components with `parseInt(v) || 0` (non-numeric
components become `0`); if no candidate's value contains the separator,
both made and attempted are `0`. -/
theorem amended_cons_none {k : String} {rest : List String} {m : String → Option String}
    (hv : m (strToLower k) = none) :
    amendedParseMadeAttempted (k :: rest) m = amendedParseMadeAttempted rest m := by
  unfold amendedParseMadeAttempted
  rw [List.find?_cons]
  simp [hv]

theorem amended_cons_neg {k : String} {rest : List String} {m : String → Option String}
    {val : String} (hv : m (strToLower k) = some val)
    (hcond : (!(val = "") && val.data.contains '-') = false) :
    amendedParseMadeAttempted (k :: rest) m = amendedParseMadeAttempted rest m := by
  unfold amendedParseMadeAttempted
  rw [List.find?_cons]
  simp only [hv, hcond]

theorem amended_cons_pos {k : String} {rest : List String} {m : String → Option String}
    {val : String} (hv : m (strToLower k) = some val)
    (hcond : (!(val = "") && val.data.contains '-') = true) :
    amendedParseMadeAttempted (k :: rest) m =
      (match (splitChar '-' val.data).map (fun p => (parseIntChars p).getD 0) with
       | made :: attempted :: _ => (made, attempted)
       | [made] => (made, 0)
       | [] => (0, 0)) := by
  unfold amendedParseMadeAttempted
  rw [List.find?_cons]
  simp only [hv, hcond]

theorem claim8_first_separator_candidate (keys : List String) (m : String → Option String) :
    parseMadeAttempted keys m = amendedParseMadeAttempted keys m := by
  induction keys with
  | nil => rfl
  | cons k rest ih =>
    cases hv : m (strToLower k) with
    | none =>
      rw [amended_cons_none hv, ← ih]
      simp [parseMadeAttempted, hv]
    | some val =>
      cases hb : (!(val = "") && val.data.contains '-') with
      | false =>
        rw [amended_cons_neg hv hb, ← ih]
        have hcases : val = "" ∨ '-' ∉ val.data := by
          by_cases hve : val = ""
          · exact Or.inl hve
          · right
            intro hmem
            have h1 : (!decide (val = "")) = true := by simp [hve]
            have h2 : val.data.contains '-' = true := by simpa using hmem
            rw [h1, h2] at hb
            simp at hb
        simp only [parseMadeAttempted, hv]
        simp
        intro hne hmem
        exact absurd hmem (hcases.resolve_left hne)
      | true =>
        rw [amended_cons_pos hv hb]
        rw [Bool.and_eq_true] at hb
        have hve : val ≠ "" := by simpa using hb.1
        have hmem : '-' ∈ val.data := by simpa using hb.2
        have hl : parseMadeAttempted (k :: rest) m =
            (((splitChar '-' val.data).map (fun p => (parseIntChars p).getD 0)).getD 0 0,
             ((splitChar '-' val.data).map (fun p => (parseIntChars p).getD 0)).getD 1 0) := by
          simp [parseMadeAttempted, hv, hve, hmem]
        rw [hl]
        rcases (splitChar '-' val.data).map (fun p => (parseIntChars p).getD 0) with
          _ | ⟨a, _ | ⟨b, t⟩⟩ <;> simp [List.getD]

/-! ## Row-level lemmas feeding the standings claims -/

theorem countP_add_countP_not {α : Type} (p : α → Bool) :
    ∀ l : List α, l.countP p + l.countP (fun a => !p a) = l.length := by
  intro l
  induction l with
  | nil => simp
  | cons a t ih =>
    rw [List.countP_cons, List.countP_cons]
    cases hp : p a <;> simp [hp] <;> omega

theorem rowFor_gamesPlayed (teams : List Team) (games : List Game) (t : String) :
    (rowFor teams games t).gamesPlayed = (aggFor games t).games := by
  by_cases hg : (aggFor games t).games = 0 <;> simp [rowFor, hg, initRow]

theorem entriesFor_eq_nil_of_games_eq_zero {games : List Game} {t : String}
    (hg : (aggFor games t).games = 0) : entriesFor games t = [] := by
  have h := aggFor_games games t
  rw [hg] at h
  exact List.length_eq_zero.mp h.symm

theorem rowFor_counts (teams : List Team) (games : List Game) (t : String) :
    (rowFor teams games t).wins = (entriesFor games t).countP entryWon
    ∧ (rowFor teams games t).losses = (entriesFor games t).countP (fun e => !entryWon e)
    ∧ (rowFor teams games t).confWins =
        (entriesFor games t).countP (fun e => entryWon e && e.isConf)
    ∧ (rowFor teams games t).confLosses =
        (entriesFor games t).countP (fun e => !entryWon e && e.isConf) := by
  by_cases hg : (aggFor games t).games = 0
  · have he := entriesFor_eq_nil_of_games_eq_zero hg
    simp [rowFor, hg, initRow, he]
  · simp [rowFor, hg, aggFor_wins, aggFor_losses, aggFor_confWins, aggFor_confLosses]

theorem meanBetween_entries (games : List Game) (t : String) (f : AggEntry → ℚ)
    (hne : entriesFor games t ≠ []) :
    meanBetween (perGame games t f)
      (((entriesFor games t).map f).sum / ((entriesFor games t).length : ℚ)) := by
  have hne2 : perGame games t f ≠ [] := by
    simpa [perGame] using hne
  have h := meanBetween_sum_div_length (perGame games t f) hne2
  simpa [perGame, List.length_map] using h

theorem rowFor_invariants (teams : List Team) (games : List Game) (t : String)
    (hg : (aggFor games t).games ≠ 0) :
    (rowFor teams games t).wins + (rowFor teams games t).losses
        = (rowFor teams games t).gamesPlayed
    ∧ meanBetween (perGame games t (fun e => e.own.factors.efg)) (rowFor teams games t).efg
    ∧ meanBetween (perGame games t (fun e => e.own.factors.tov)) (rowFor teams games t).tov
    ∧ meanBetween (perGame games t (fun e => e.own.factors.orb)) (rowFor teams games t).orb
    ∧ meanBetween (perGame games t (fun e => e.own.factors.ftr)) (rowFor teams games t).ftr
    ∧ meanBetween (perGame games t (fun e => e.opp.factors.efg)) (rowFor teams games t).oppEfg
    ∧ meanBetween (perGame games t (fun e => e.opp.factors.tov)) (rowFor teams games t).oppTov
    ∧ meanBetween (perGame games t (fun e => e.opp.factors.orb)) (rowFor teams games t).oppOrb
    ∧ meanBetween (perGame games t (fun e => e.opp.factors.ftr)) (rowFor teams games t).oppFtr := by
  have hne : entriesFor games t ≠ [] := by
    intro he
    apply hg
    rw [aggFor_games, he]
    rfl
  refine ⟨?_, ?_, ?_, ?_, ?_, ?_, ?_, ?_, ?_⟩
  · have hw : (rowFor teams games t).wins = (aggFor games t).wins := by simp [rowFor, hg]
    have hl : (rowFor teams games t).losses = (aggFor games t).losses := by simp [rowFor, hg]
    rw [hw, hl, rowFor_gamesPlayed, aggFor_wins, aggFor_losses, aggFor_games]
    exact countP_add_countP_not entryWon (entriesFor games t)
  · have hf : (rowFor teams games t).efg
        = (aggFor games t).efgSum / ((aggFor games t).games : ℚ) := by simp [rowFor, hg]
    rw [hf, aggFor_efgSum, aggFor_games]
    exact meanBetween_entries games t _ hne
  · have hf : (rowFor teams games t).tov
        = (aggFor games t).tovSum / ((aggFor games t).games : ℚ) := by simp [rowFor, hg]
    rw [hf, aggFor_tovSum, aggFor_games]
    exact meanBetween_entries games t _ hne
  · have hf : (rowFor teams games t).orb
        = (aggFor games t).orbSum / ((aggFor games t).games : ℚ) := by simp [rowFor, hg]
    rw [hf, aggFor_orbSum, aggFor_games]
    exact meanBetween_entries games t _ hne
  · have hf : (rowFor teams games t).ftr
        = (aggFor games t).ftrSum / ((aggFor games t).games : ℚ) := by simp [rowFor, hg]
    rw [hf, aggFor_ftrSum, aggFor_games]
    exact meanBetween_entries games t _ hne
  · have hf : (rowFor teams games t).oppEfg
        = (aggFor games t).oppEfgSum / ((aggFor games t).games : ℚ) := by simp [rowFor, hg]
    rw [hf, aggFor_oppEfgSum, aggFor_games]
    exact meanBetween_entries games t _ hne
  · have hf : (rowFor teams games t).oppTov
        = (aggFor games t).oppTovSum / ((aggFor games t).games : ℚ) := by simp [rowFor, hg]
    rw [hf, aggFor_oppTovSum, aggFor_games]
    exact meanBetween_entries games t _ hne
  · have hf : (rowFor teams games t).oppOrb
        = (aggFor games t).oppOrbSum / ((aggFor games t).games : ℚ) := by simp [rowFor, hg]
    rw [hf, aggFor_oppOrbSum, aggFor_games]
    exact meanBetween_entries games t _ hne
  · have hf : (rowFor teams games t).oppFtr
        = (aggFor games t).oppFtrSum / ((aggFor games t).games : ℚ) := by simp [rowFor, hg]
    rw [hf, aggFor_oppFtrSum, aggFor_games]
    exact meanBetween_entries games t _ hne

/-- C9: `calculateStandings` returns its rows sorted descending by wins,
with ties on wins broken by descending conference wins (so a row with
equal wins but more conference wins never appears after one with fewer). -/
theorem claim9_standings_sorted (teams : List Team) (games : List Game) :
    List.Pairwise
      (fun a b : TeamStandings => b.wins < a.wins ∨ (b.wins = a.wins ∧ b.confWins ≤ a.confWins))
      (calculateStandings teams games) := by
  have h := List.sorted_insertionSort standingsRel
    ((dedupFirst (teams.map (·.id))).map (rowFor teams games))
  exact h

/-- C10: in every standings row, a win is counted exactly for the entries
whose own score is strictly greater than the opponent's; every other
completed entry — ties included, and in particular the all-default `0-0`
score case — is counted as a loss (and as a conference loss when the game
is a conference game), and an entry with equal scores is never a win. -/
theorem claim10_tie_counts_as_loss (teams : List Team) (games : List Game)
    (row : TeamStandings) (hrow : row ∈ calculateStandings teams games) :
    row.wins = (entriesFor games row.teamId).countP entryWon
    ∧ row.losses = (entriesFor games row.teamId).countP (fun e => !entryWon e)
    ∧ row.confWins = (entriesFor games row.teamId).countP (fun e => entryWon e && e.isConf)
    ∧ row.confLosses = (entriesFor games row.teamId).countP (fun e => !entryWon e && e.isConf)
    ∧ ∀ e ∈ entriesFor games row.teamId, e.own.score = e.opp.score → entryWon e = false := by
  have hr := mem_calculateStandings hrow
  have h := rowFor_counts teams games row.teamId
  rw [← hr] at h
  refine ⟨h.1, h.2.1, h.2.2.1, h.2.2.2, ?_⟩
  intro e he heq
  unfold entryWon
  rw [heq]
  exact scoreGt_irrefl _

/-- C5: every standings row with `gamesPlayed > 0` satisfies
`wins + losses = gamesPlayed`, and each of the eight averaged factors lies
between the minimum and the maximum of that team's per-game values over
the completed entries that were aggregated. -/
theorem claim5_standings_row_invariants (teams : List Team) (games : List Game)
    (row : TeamStandings) (hrow : row ∈ calculateStandings teams games)
    (hpos : 0 < row.gamesPlayed) :
    row.wins + row.losses = row.gamesPlayed
    ∧ meanBetween (perGame games row.teamId (fun e => e.own.factors.efg)) row.efg
    ∧ meanBetween (perGame games row.teamId (fun e => e.own.factors.tov)) row.tov
    ∧ meanBetween (perGame games row.teamId (fun e => e.own.factors.orb)) row.orb
    ∧ meanBetween (perGame games row.teamId (fun e => e.own.factors.ftr)) row.ftr
    ∧ meanBetween (perGame games row.teamId (fun e => e.opp.factors.efg)) row.oppEfg
    ∧ meanBetween (perGame games row.teamId (fun e => e.opp.factors.tov)) row.oppTov
    ∧ meanBetween (perGame games row.teamId (fun e => e.opp.factors.orb)) row.oppOrb
    ∧ meanBetween (perGame games row.teamId (fun e => e.opp.factors.ftr)) row.oppFtr := by
  have hr := mem_calculateStandings hrow
  have hgne : (aggFor games row.teamId).games ≠ 0 := by
    intro h0
    rw [hr, rowFor_gamesPlayed, h0] at hpos
    exact Nat.lt_irrefl 0 hpos
  have h := rowFor_invariants teams games row.teamId hgne
  rw [← hr] at h
  exact h

/-! ## Concrete inputs for witnesses and counterexamples -/

def zeroBox : BoxScoreStats :=
  { fgm := 0, fga := 0, fg3m := 0, fg3a := 0, ftm := 0, fta := 0
    oreb := 0, dreb := 0, turnovers := 0 }

def exTeamA : Team :=
  { id := "1", name := "Aggies", abbreviation := "AGG", displayName := "Test Aggies"
    shortDisplayName := "Aggies", logo := "logoA", color := "#111111"
    alternateColor := "#222222", conference := "Test Conference", conferenceId := "9" }

def exTeamB : Team :=
  { id := "2", name := "Bears", abbreviation := "BEA", displayName := "Test Bears"
    shortDisplayName := "Bears", logo := "logoB", color := "#333333"
    alternateColor := "#444444", conference := "Test Conference", conferenceId := "9" }

def exWinGame : Game :=
  { id := "401"
    date := "2025-01-01"
    venue := "Test Arena"
    homeTeam :=
      { teamId := "1", teamName := some "Test Aggies", teamAbbreviation := some "AGG"
        teamLogo := some "logoA", teamColor := "#111111", score := some 2, isHome := true
        box := zeroBox, factors := { efg := 50, tov := 20, orb := 30, ftr := 40 } }
    awayTeam :=
      { teamId := "2", teamName := some "Test Bears", teamAbbreviation := some "BEA"
        teamLogo := some "logoB", teamColor := "#333333", score := some 1, isHome := false
        box := zeroBox, factors := { efg := 45, tov := 25, orb := 35, ftr := 15 } }
    isComplete := true
    isConferenceGame := false }

def exTieGame : Game :=
  { id := "402"
    date := "2025-01-02"
    venue := "Test Arena"
    homeTeam :=
      { teamId := "1", teamName := some "Test Aggies", teamAbbreviation := some "AGG"
        teamLogo := some "logoA", teamColor := "#111111", score := some 70, isHome := true
        box := zeroBox, factors := { efg := 50, tov := 20, orb := 30, ftr := 40 } }
    awayTeam :=
      { teamId := "2", teamName := some "Test Bears", teamAbbreviation := some "BEA"
        teamLogo := some "logoB", teamColor := "#333333", score := some 70, isHome := false
        box := zeroBox, factors := { efg := 45, tov := 25, orb := 35, ftr := 15 } }
    isComplete := true
    isConferenceGame := true }

theorem exWin_mem :
    rowFor [exTeamA] [exWinGame] "1" ∈ calculateStandings [exTeamA] [exWinGame] := by
  unfold calculateStandings
  rw [List.mem_insertionSort]
  apply List.mem_map.mpr
  refine ⟨"1", ?_, rfl⟩
  decide

theorem exTie_mem :
    rowFor [exTeamA, exTeamB] [exTieGame] "1"
      ∈ calculateStandings [exTeamA, exTeamB] [exTieGame] := by
  unfold calculateStandings
  rw [List.mem_insertionSort]
  apply List.mem_map.mpr
  refine ⟨"1", ?_, rfl⟩
  decide

/-- C5 witness: the single-team, single-completed-game instance. -/
theorem claim5_standings_row_invariants_witness :
    (rowFor [exTeamA] [exWinGame] "1").wins + (rowFor [exTeamA] [exWinGame] "1").losses
        = (rowFor [exTeamA] [exWinGame] "1").gamesPlayed
    ∧ meanBetween
        (perGame [exWinGame] (rowFor [exTeamA] [exWinGame] "1").teamId
          (fun e => e.own.factors.efg))
        (rowFor [exTeamA] [exWinGame] "1").efg
    ∧ meanBetween
        (perGame [exWinGame] (rowFor [exTeamA] [exWinGame] "1").teamId
          (fun e => e.own.factors.tov))
        (rowFor [exTeamA] [exWinGame] "1").tov
    ∧ meanBetween
        (perGame [exWinGame] (rowFor [exTeamA] [exWinGame] "1").teamId
          (fun e => e.own.factors.orb))
        (rowFor [exTeamA] [exWinGame] "1").orb
    ∧ meanBetween
        (perGame [exWinGame] (rowFor [exTeamA] [exWinGame] "1").teamId
          (fun e => e.own.factors.ftr))
        (rowFor [exTeamA] [exWinGame] "1").ftr
    ∧ meanBetween
        (perGame [exWinGame] (rowFor [exTeamA] [exWinGame] "1").teamId
          (fun e => e.opp.factors.efg))
        (rowFor [exTeamA] [exWinGame] "1").oppEfg
    ∧ meanBetween
        (perGame [exWinGame] (rowFor [exTeamA] [exWinGame] "1").teamId
          (fun e => e.opp.factors.tov))
        (rowFor [exTeamA] [exWinGame] "1").oppTov
    ∧ meanBetween
        (perGame [exWinGame] (rowFor [exTeamA] [exWinGame] "1").teamId
          (fun e => e.opp.factors.orb))
        (rowFor [exTeamA] [exWinGame] "1").oppOrb
    ∧ meanBetween
        (perGame [exWinGame] (rowFor [exTeamA] [exWinGame] "1").teamId
          (fun e => e.opp.factors.ftr))
        (rowFor [exTeamA] [exWinGame] "1").oppFtr :=
  claim5_standings_row_invariants [exTeamA] [exWinGame]
    (rowFor [exTeamA] [exWinGame] "1") exWin_mem (by decide)

/-- C10 witness: the tied conference game gives the home team a loss and a
conference loss, never a win. -/
theorem claim10_tie_counts_as_loss_witness :
    (rowFor [exTeamA, exTeamB] [exTieGame] "1").wins
        = (entriesFor [exTieGame]
            (rowFor [exTeamA, exTeamB] [exTieGame] "1").teamId).countP entryWon
    ∧ (rowFor [exTeamA, exTeamB] [exTieGame] "1").losses
        = (entriesFor [exTieGame]
            (rowFor [exTeamA, exTeamB] [exTieGame] "1").teamId).countP (fun e => !entryWon e)
    ∧ (rowFor [exTeamA, exTeamB] [exTieGame] "1").confWins
        = (entriesFor [exTieGame]
            (rowFor [exTeamA, exTeamB] [exTieGame] "1").teamId).countP
              (fun e => entryWon e && e.isConf)
    ∧ (rowFor [exTeamA, exTeamB] [exTieGame] "1").confLosses
        = (entriesFor [exTieGame]
            (rowFor [exTeamA, exTeamB] [exTieGame] "1").teamId).countP
              (fun e => !entryWon e && e.isConf)
    ∧ ∀ e ∈ entriesFor [exTieGame] (rowFor [exTeamA, exTeamB] [exTieGame] "1").teamId,
        e.own.score = e.opp.score → entryWon e = false :=
  claim10_tie_counts_as_loss [exTeamA, exTeamB] [exTieGame]
    (rowFor [exTeamA, exTeamB] [exTieGame] "1") exTie_mem

/-! ## Claim C4: retry policy coverage -/

/-- A schedule-endpoint attempt trace whose first attempt rejects with a
transport error while every later attempt would succeed. -/
def exSchedTrace : Nat → NetResult (List RawEvent) := fun i =>
  if i = 0 then .error "ECONNRESET"
  else .ok { ok := true, body := [{ id := "401", date := "2025-01-01", completed := some true }] }

/-- The environment whose schedule endpoint behaves as `exSchedTrace`. -/
def exSchedEnv : Env :=
  { conf := fun _ _ => .error "unused"
    standings := fun _ _ _ => .error "unused"
    teamDetail := fun _ _ _ => .error "unused"
    schedule := fun _ _ i => exSchedTrace i
    summary := fun _ _ _ => .error "unused"
    dateMs := fun _ => 0 }

/-- C4 counterexample: the team-schedule call is not wrapped in the
bounded-retry policy. On a trace with one transient failure followed by
success, `fetchWithRetry` would recover (after a single 1000 ms backoff),
but `fetchTeamSchedule` propagates the first transport error outright —
a fatal outcome, not a skip-and-log "unavailable" one. -/
theorem claim4_counterexample :
    fetchTeamSchedule exSchedEnv .mens "52" = .error "ECONNRESET"
    ∧ (fetchWithRetry exSchedTrace 3).1
        = .ok { ok := true
                body := [{ id := "401", date := "2025-01-01", completed := some true }] }
    ∧ (fetchWithRetry exSchedTrace 3).2 = [1000] := by
  refine ⟨rfl, rfl, rfl⟩

/-- C4 (amended): only the game-summary call runs under the bounded-retry
policy: `fetchWithRetry` makes at most 3 attempts, retries only transport
errors, sleeps `1000 * 2^attempt` ms between failed attempts (1 s then
2 s) and rethrows the last error, which `fetchGameDetails` catches and
converts to a skipped game (`none`); the conference-list and team-schedule
calls consume exactly one attempt, resolving a non-ok response locally to
an empty list while propagating a transport error to the caller. -/
theorem claim4_retry_only_summary :
    (∀ (α : Type) (f : Nat → NetResult α),
      fetchWithRetry f 3 =
        match f 0 with
        | .ok r => (.ok r, [])
        | .error _ =>
          match f 1 with
          | .ok r => (.ok r, [1000])
          | .error _ =>
            match f 2 with
            | .ok r => (.ok r, [1000, 2000])
            | .error e2 => (.error e2, [1000, 2000]))
    ∧ (∀ (e : String) (teamLookup : String → Option Team) (gameId : String),
        fetchGameDetails (fun _ => .error e) teamLookup gameId = none)
    ∧ (∀ (env : Env) (g : Gender) (teamId : String),
        fetchTeamSchedule env g teamId =
          match env.schedule g teamId 0 with
          | .error e => .error e
          | .ok response =>
            .ok (if response.ok then
                  response.body.map (fun event =>
                    { gameId := event.id, date := event.date
                      isComplete := event.completed.getD false })
                 else []))
    ∧ (∀ (env : Env) (g : Gender),
        fetchAllConferences env g =
          match env.conf g 0 with
          | .error e => .error e
          | .ok response =>
            .ok (if response.ok then
                  (response.body.filter (fun c => c.groupId ≠ "50")).map (fun c =>
                    { id := c.groupId, name := c.name })
                 else [])) := by
  refine ⟨?_, ?_, ?_, ?_⟩
  · intro α f
    unfold fetchWithRetry
    cases h0 : f 0 with
    | ok r => simp [fetchWithRetryAux, h0]
    | error e0 =>
      cases h1 : f 1 with
      | ok r => simp [fetchWithRetryAux, h0, h1]
      | error e1 =>
        cases h2 : f 2 with
        | ok r => simp [fetchWithRetryAux, h0, h1, h2]
        | error e2 => simp [fetchWithRetryAux, h0, h1, h2]
  · intro e teamLookup gameId
    unfold fetchGameDetails
    have h : (fetchWithRetry (fun _ => (.error e : NetResult SummaryPayload)) 3).1
        = .error e := by
      simp [fetchWithRetry, fetchWithRetryAux]
    rw [h]
  · intro env g teamId
    unfold fetchTeamSchedule
    cases h : env.schedule g teamId 0 with
    | error e => rfl
    | ok response => by_cases hok : response.ok <;> simp [hok]
  · intro env g
    unfold fetchAllConferences
    cases h : env.conf g 0 with
    | error e => rfl
    | ok response => by_cases hok : response.ok <;> simp [hok]

/-! ## Claim C2: discovery failure behaviour -/

/-- The environment of C2's counterexample: the top-level conference-list
fetch returns an HTTP-error (non-ok) response for both genders, so no
conference — and hence no team — can be resolved. -/
def exHttpFailEnv : Env :=
  { conf := fun _ _ => .ok { ok := false, body := [] }
    standings := fun _ _ _ => .error "unused"
    teamDetail := fun _ _ _ => .error "unused"
    schedule := fun _ _ _ => .error "unused"
    summary := fun _ _ _ => .error "unused"
    dateMs := fun _ => 0 }

/-- C2 counterexample: when the conference list cannot be resolved because
the response is an HTTP error, the run is NOT fatal and it DOES write all
six output files (with empty contents) although no team roster was ever
obtained. -/
theorem claim2_counterexample :
    mainRun exHttpFailEnv =
      ([{ gender := .mens, file := .teams [] },
        { gender := .mens, file := .games [] },
        { gender := .mens, file := .standings [] },
        { gender := .womens, file := .teams [] },
        { gender := .womens, file := .games [] },
        { gender := .womens, file := .standings [] }], none) := by
  rfl

/-- C2 (amended): when the top-level conference-list fetch rejects with a
transport error, the run is fatal for that (gender, season) and no output
file for that gender is written. -/
theorem claim2_discovery_transport_fatal (env : Env) (g : Gender) (e : String)
    (hconf : env.conf g 0 = .error e) :
    (mainRun env).2.isSome ∧ ∀ w ∈ (mainRun env).1, w.gender ≠ g := by
  have hg : fetchGenderData env g = .error e := by
    unfold fetchGenderData fetchAllTeams fetchAllConferences
    rw [hconf]
    rfl
  cases g with
  | mens =>
    unfold mainRun
    rw [hg]
    simp
  | womens =>
    unfold mainRun
    cases hm : fetchGenderData env .mens with
    | error em => simp
    | ok mensData =>
      rw [hg]
      simp [genderWrites]

/-- The environment of C2's witness: the conference-list fetch rejects for
both genders. -/
def exTransportFailEnv : Env :=
  { conf := fun _ _ => .error "ENOTFOUND"
    standings := fun _ _ _ => .error "unused"
    teamDetail := fun _ _ _ => .error "unused"
    schedule := fun _ _ _ => .error "unused"
    summary := fun _ _ _ => .error "unused"
    dateMs := fun _ => 0 }

/-- C2 witness: the transport-error environment instantiated for the
men's run. -/
theorem claim2_discovery_transport_fatal_witness :
    (mainRun exTransportFailEnv).2.isSome
    ∧ ∀ w ∈ (mainRun exTransportFailEnv).1, w.gender ≠ Gender.mens :=
  claim2_discovery_transport_fatal exTransportFailEnv .mens "ENOTFOUND" rfl

end NCAA
